import Mathlib

/-!
Shallow embedding of `src/shakedown/cli/main.py` (the shakedown CLI):
the pytest wrapper plugin (report aggregator, class `shakedown` inside
`cli`, lines 126-307) and the authentication chain (lines 86-124).

Console formatting helpers (`echo`, `fchr`, `decorate`, imported from the
helpers module) are modelled structurally: every `echo` call becomes one
`OutItem` tagged with its display class, and the composed stdout/stderr
box string `o` becomes a structured `Block` carrying the same fields the
string is built from.  A Python exception raised inside a hook aborts the
hook; the model returns `Except.error` in that case.
-/

namespace Shakedown

/-- Outcome strings of the source: the `state` argument of `output`
(`'pass'`, `'fail'`, `'skip'`). -/
inductive St
  | pass
  | fail
  | skip
deriving DecidableEq, Repr

/-- The `--stdout` choice (`click.Choice(['pass','fail','skip','all','none'])`). -/
inductive FilterC
  | pass
  | fail
  | skip
  | all
  | none
deriving DecidableEq, Repr

/-- The two configuration axes the aggregator reads: `args['stdout']`
(`Option.none` models Python `None`) and `args['stdout_inline']`. -/
structure Args where
  stdout : Option FilterC
  stdout_inline : Bool
deriving DecidableEq, Repr

/-- Python truthiness of an optional string: `None` and `''` are falsy. -/
def optTruthy : Option String → Bool
  | Option.none => false
  | Option.some s => !(s == "")

/-- The choice string corresponding to an outcome (used by
`args['stdout'] in [state, 'all']`). -/
def stChoice : St → FilterC
  | St.pass => FilterC.pass
  | St.fail => FilterC.fail
  | St.skip => FilterC.skip

/-- Test `args['stdout'] in [state, 'all']` of `output` (line 179). -/
def filterMatches (f : Option FilterC) (state : St) : Bool :=
  match f with
  | Option.some c => c = stChoice state || c = FilterC.all
  | Option.none => false

/-- Split a character list at the first occurrence of `"::"`, like Python
`s.split('::', 1)` when the separator occurs. -/
def splitSepChars : List Char → Option (List Char × List Char)
  | [] => Option.none
  | c :: rest =>
    if c = ':' then
      match rest with
      | [] => Option.none
      | c2 :: rest2 =>
        if c2 = ':' then Option.some ([], rest2)
        else
          match splitSepChars rest with
          | Option.some (pre, post) => Option.some (c :: pre, post)
          | Option.none => Option.none
    else
      match splitSepChars rest with
      | Option.some (pre, post) => Option.some (c :: pre, post)
      | Option.none => Option.none

/-- Model of `report.nodeid.split('::', 1)` under the two-element unpacking of line
229: `Option.some (report_file, report_test)` when the separator occurs,
`Option.none` when the unpacking would raise `ValueError`. -/
def splitNode (id : String) : Option (String × String) :=
  match splitSepChars id.data with
  | Option.some (pre, post) => Option.some (String.mk pre, String.mk post)
  | Option.none => Option.none

/-- Model of `report.nodeid.split('::', 1)[0]` of line 274: the part before the
first `"::"`, or the whole string when there is no separator. -/
def moduleOf (id : String) : String :=
  match splitNode id with
  | Option.some (f, _) => f
  | Option.none => id

/-- Model of `secname.split(' ')[-1]` of line 275: everything after the last space. -/
def lastTokenChars (cur : List Char) : List Char → List Char
  | [] => cur
  | c :: rest => if c = ' ' then lastTokenChars [] rest else lastTokenChars (cur ++ [c]) rest

/-- Model of `secname.split(' ')[-1]` on strings. -/
def capType (secname : String) : String :=
  String.mk (lastTokenChars [] secname.data)

/-- Whitespace test of Python `str.strip`. -/
def isSpaceChar (c : Char) : Bool :=
  c = ' ' || c = '\t' || c = '\n' || c = '\r'

/-- Drop leading whitespace characters. -/
def dropLeadingSpace : List Char → List Char
  | [] => []
  | c :: rest => if isSpaceChar c then dropLeadingSpace rest else c :: rest

/-- Model of `str(text).strip()` of line 182. -/
def stripStr (s : String) : String :=
  String.mk (List.reverse (dropLeadingSpace (List.reverse (dropLeadingSpace s.data))))

/-- A rendered stdout/stderr box (the string `o` built on lines 180-182),
kept structured: its title, the outcome that selected the glyph and the
styles, and the stripped captured text. -/
structure Block where
  title : String
  st : St
  text : String
deriving DecidableEq, Repr

/-- One console line class, one constructor per distinct `echo`/output
shape of the plugin.  `marker` is the standalone status glyph
`echo(schr, d='fail'/'pass')`; it is tagged with the `title` argument of
the `output` call that emitted it, identifying which node it was printed
for. -/
inductive OutItem
  | marker (title : String) (st : St)
  | stepMaj (msg : String)
  | stepMin (msg : String)
  | itemMaj (msg : String)
  | itemMin (msg : String)
  | blank
  | block (b : Block)
deriving DecidableEq, Repr

/-- Python exceptions the plugin code can raise. -/
inductive PyErr
  | unboundLocalError
  | keyError (key : String)
deriving DecidableEq, Repr

/-- The per-node entry of `shakedown.tests['test'][nodeid]`: a dict used
as a set of the flags `'fail'`, `'setup'`, `'tested'`. -/
structure NodeFlags where
  fail : Bool := false
  setup : Bool := false
  tested : Bool := false
deriving DecidableEq, Repr

/-- Model of `shakedown.report_stats` (lines 139-146). -/
structure ReportStats where
  passed : List String := []
  skipped : List String := []
  failed : List String := []
  total_passed : Nat := 0
  total_skipped : Nat := 0
  total_failed : Nat := 0
deriving DecidableEq, Repr

/-- The mutable class state of the plugin: `shakedown.state` (modelled by
the two membership booleans it is queried for), `shakedown.stdout`,
`shakedown.tests['file']`, `shakedown.tests['test']` and
`shakedown.report_stats`. -/
structure PState where
  collectSeen : Bool := false
  testSeen : Bool := false
  stdoutBuf : List Block := []
  files : List String := []
  tests : List (String × NodeFlags) := []
  report_stats : ReportStats := {}
deriving DecidableEq, Repr

/-- The freshly constructed plugin instance. -/
def initState : PState := {}

/-- Membership test `key in dict` over the keys of `shakedown.tests['file']`. -/
def memberStr : List String → String → Bool
  | [], _ => false
  | x :: rest, y => if x = y then true else memberStr rest y

/-- Lookup in the `tests['test']` dict. -/
def lookupNode : List (String × NodeFlags) → String → Option NodeFlags
  | [], _ => Option.none
  | (k, v) :: rest, id => if k = id then Option.some v else lookupNode rest id

/-- Update the entry of a registered node id in `tests['test']`. -/
def updateNode (ts : List (String × NodeFlags)) (id : String) (f : NodeFlags → NodeFlags) :
    List (String × NodeFlags) :=
  ts.map (fun p => if p.1 = id then (p.1, f p.2) else p)

/-- Test `'tested' in shakedown.tests['test'][id]`, for ids known to be
registered. -/
def nodeTested (ts : List (String × NodeFlags)) (id : String) : Bool :=
  match lookupNode ts id with
  | Option.some fl => fl.tested
  | Option.none => false

/-- The standalone-marker part of `output` (lines 166-177): echoed when
`status` is set, always in deferred mode, only for falsy `text` in inline
mode; `'skip'` echoes nothing because the glyph echo branches test only
`'fail'` and `'pass'`. -/
def outputStatusItems (args : Args) (title : String) (state : St) (text : Option String)
    (status : Bool) : List OutItem :=
  if status then
    if !args.stdout_inline then
      match state with
      | St.fail => [OutItem.marker title St.fail]
      | St.pass => [OutItem.marker title St.pass]
      | St.skip => []
    else
      if !(optTruthy text) then
        match state with
        | St.fail => [OutItem.marker title St.fail]
        | St.pass => [OutItem.marker title St.pass]
        | St.skip => []
      else []
  else []

/-- Model of `shakedown.output(title, state, text, status=True)` (lines 149-187).
`schr` is assigned only for `'fail'` and `'pass'`; referencing it with an
outcome of `'skip'` raises `UnboundLocalError`.  The standalone marker is
echoed per `outputStatusItems`.  The detailed box is built when `text` is
truthy and the `--stdout` filter matches; it is echoed at once in inline
mode and appended to `shakedown.stdout` otherwise. -/
def output (args : Args) (s : PState) (title : String) (state : St) (text : Option String)
    (status : Bool) : Except PyErr (PState × List OutItem) :=
  let schr : Option St :=
    match state with
    | St.fail => Option.some St.fail
    | St.pass => Option.some St.pass
    | St.skip => Option.none
  let statusItems : List OutItem := outputStatusItems args title state text status
  if optTruthy text && filterMatches args.stdout state then
    match schr with
    | Option.none => Except.error PyErr.unboundLocalError
    | Option.some _ =>
      let b : Block := { title := title, st := state, text := stripStr (text.getD "") }
      if args.stdout_inline then
        Except.ok (s, statusItems ++ [OutItem.block b])
      else
        Except.ok ({ s with stdoutBuf := s.stdoutBuf ++ [b] }, statusItems)
  else
    Except.ok (s, statusItems)

/-- A collection report (`pytest_collectreport`): its node id (empty
string models a falsy id), outcome flags and `report.longrepr`. -/
structure CollectReport where
  nodeid : String
  failed : Bool
  passed : Bool
  skipped : Bool
  longrepr : Option String
deriving DecidableEq, Repr

/-- Phase indicator `report.when` of a test report. -/
inductive When
  | setup
  | call
  | teardown
deriving DecidableEq, Repr

/-- A test report as consumed by `pytest_report_teststatus` and
`pytest_runtest_logreport`: node id, phase, outcome flags, captured
sections `(secname, content)`, and `Option.some crash` exactly when
`hasattr(report.longrepr, 'reprcrash')` holds (`crash` being
`str(longreport.reprcrash)`). -/
structure TestReport where
  nodeid : String
  when : When
  failed : Bool
  passed : Bool
  skipped : Bool
  sections : List (String × String)
  reprcrash : Option String
deriving DecidableEq, Repr

/-- Hook `pytest_collectreport` (lines 190-214). -/
def pytest_collectreport (args : Args) (s : PState) (r : CollectReport) :
    Except PyErr (PState × List OutItem) :=
  let (s1, o1) :=
    if !s.collectSeen then
      ({ s with collectSeen := true }, [OutItem.stepMin "Collecting and validating test files..."])
    else (s, ([] : List OutItem))
  if r.nodeid = "" then
    Except.ok (s1, o1)
  else
    let o2 := o1 ++ [OutItem.itemMaj r.nodeid]
    let state : Option St :=
      if r.skipped then Option.some St.skip
      else if r.passed then Option.some St.pass
      else if r.failed then Option.some St.fail
      else Option.none
    match state with
    | Option.some st =>
      match output args s1 r.nodeid st r.longrepr true with
      | Except.ok (s2, o3) => Except.ok (s2, o2 ++ o3)
      | Except.error e => Except.error e
    | Option.none => Except.ok (s1, o2)

/-- Hook `pytest_sessionstart` (lines 217-221). -/
def pytest_sessionstart (s : PState) : PState × List OutItem :=
  (s, [OutItem.stepMaj "Initiating testing phase..."])

/-- The header part of `pytest_report_teststatus` (lines 233-246): the
one-time phase header, the per-file header (first sight of the file
prefix) and the per-test in-progress label (first sight of the node id,
which also registers it with an empty flag dict). -/
def teststatusHeaders (args : Args) (s : PState) (report_file report_test nodeid : String) :
    PState × List OutItem :=
  let (s1, o1) :=
    if !s.testSeen then
      ({ s with testSeen := true }, [OutItem.stepMin "Running individual tests..."])
    else (s, ([] : List OutItem))
  let (s2, o2) :=
    if !(memberStr s1.files report_file) then
      ({ s1 with files := s1.files ++ [report_file] },
        (if args.stdout_inline then [OutItem.blank] else []) ++ [OutItem.itemMaj report_file])
    else (s1, ([] : List OutItem))
  let (s3, o3) :=
    match lookupNode s2.tests nodeid with
    | Option.none =>
      ({ s2 with tests := s2.tests ++ [(nodeid, ({} : NodeFlags))] },
        (if args.stdout_inline then [OutItem.blank] else []) ++ [OutItem.itemMin report_test])
    | Option.some _ => (s2, ([] : List OutItem))
  (s3, o1 ++ o2 ++ o3)

/-- Lines 248-249: `if report.failed:` set the `'fail'` key of the
node's flag dict. -/
def teststatusFailFlag (s3 : PState) (r : TestReport) : PState :=
  if r.failed then
    { s3 with tests := updateNode s3.tests r.nodeid (fun fl => { fl with fail := true }) }
  else s3

/-- Hook `pytest_report_teststatus` (lines 224-255).  A node id without the
`"::"` separator makes the two-element unpacking raise `ValueError`,
which is caught and answered by a bare `return`: the whole handler is
skipped.  Otherwise the headers and registration of `teststatusHeaders`
run, the `'fail'` flag is set for failed reports, and a teardown report
for a node whose `'tested'` flag is unset prints a `'pass'` marker
through `output` (without setting the flag). -/
def pytest_report_teststatus (args : Args) (s : PState) (r : TestReport) :
    Except PyErr (PState × List OutItem) :=
  match splitNode r.nodeid with
  | Option.none => Except.ok (s, [])
  | Option.some (report_file, report_test) =>
    let (s3, oreg) := teststatusHeaders args s report_file report_test r.nodeid
    let s4 := teststatusFailFlag s3 r
    if r.when = When.teardown && !(nodeTested s4.tests r.nodeid) then
      match output args s4 r.nodeid St.pass Option.none true with
      | Except.ok (s5, o5) => Except.ok (s5, oreg ++ o5)
      | Except.error e => Except.error e
    else
      Except.ok (s4, oreg)

/-- The per-report `state` variable of `pytest_runtest_logreport`: set
inside the section loop from the report's outcome flags, later
assignments overwriting earlier ones (`skipped` over `passed` over
`failed`); `Option.none` when no flag is set. -/
def stateOf (r : TestReport) : Option St :=
  if r.skipped then Option.some St.skip
  else if r.passed then Option.some St.pass
  else if r.failed then Option.some St.fail
  else Option.none

/-- One iteration of the section loop of `pytest_runtest_logreport`
(lines 264-283).  Looking up `shakedown.tests['test'][report.nodeid]` for
an unregistered node id raises `KeyError`. -/
def processOneSection (args : Args) (r : TestReport) (st? : Option St) (s : PState)
    (secname content : String) : Except PyErr (PState × List OutItem) :=
  match st? with
  | Option.none => Except.ok (s, [])
  | Option.some st =>
    if secname ≠ "Captured stdout call" then
      match lookupNode s.tests r.nodeid with
      | Option.none => Except.error (PyErr.keyError r.nodeid)
      | Option.some fl =>
        if !fl.setup then
          let s' := { s with
            tests := updateNode s.tests r.nodeid (fun f => { f with setup := true }) }
          output args s' (moduleOf r.nodeid ++ " " ++ capType secname) st
            (Option.some content) false
        else Except.ok (s, [])
    else if r.when = When.call then
      match lookupNode s.tests r.nodeid with
      | Option.none => Except.error (PyErr.keyError r.nodeid)
      | Option.some fl =>
        if fl.tested then
          output args s r.nodeid st (Option.some content) false
        else
          let s' := { s with
            tests := updateNode s.tests r.nodeid (fun f => { f with tested := true }) }
          output args s' r.nodeid st (Option.some content) true
    else Except.ok (s, [])

/-- The section loop of `pytest_runtest_logreport` (lines 264-283). -/
def processSections (args : Args) (r : TestReport) (st? : Option St) (s : PState) :
    List (String × String) → Except PyErr (PState × List OutItem)
  | [] => Except.ok (s, [])
  | (secname, content) :: rest =>
    match processOneSection args r st? s secname content with
    | Except.error e => Except.error e
    | Except.ok (s', o') =>
      match processSections args r st? s' rest with
      | Except.error e => Except.error e
      | Except.ok (s'', o'') => Except.ok (s'', o' ++ o'')

/-- Hook `pytest_runtest_logreport` (lines 258-296): the section loop, then
the crash capture (lines 286-296).  A crash on an already-`'tested'`
node appends a markerless failure box (plus a blank line in inline
mode); on a node not yet `'tested'` it sets the flag and renders the
marker. -/
def pytest_runtest_logreport (args : Args) (s : PState) (r : TestReport) :
    Except PyErr (PState × List OutItem) :=
  match processSections args r (stateOf r) s r.sections with
  | Except.error e => Except.error e
  | Except.ok (s1, o1) =>
    match r.reprcrash with
    | Option.none => Except.ok (s1, o1)
    | Option.some crash =>
      match lookupNode s1.tests r.nodeid with
      | Option.none => Except.error (PyErr.keyError r.nodeid)
      | Option.some fl =>
        if fl.tested then
          match output args s1 r.nodeid St.fail (Option.some ("error: " ++ crash)) false with
          | Except.ok (s2, o2) =>
            Except.ok (s2, o1 ++ o2 ++ (if args.stdout_inline then [OutItem.blank] else []))
          | Except.error e => Except.error e
        else
          let s2 := { s1 with
            tests := updateNode s1.tests r.nodeid (fun f => { f with tested := true }) }
          match output args s2 r.nodeid St.fail (Option.some ("error: " ++ crash)) true with
          | Except.ok (s3, o3) => Except.ok (s3, o1 ++ o3)
          | Except.error e => Except.error e

/-- Hook `pytest_sessionfinish` (lines 299-307): the completion header, then
the flush of `shakedown.stdout` (in append order) when the `--stdout`
filter is set and the buffer is nonempty. -/
def pytest_sessionfinish (args : Args) (s : PState) : PState × List OutItem :=
  let header := [OutItem.stepMaj "Test phase completed."]
  if args.stdout.isSome && !s.stdoutBuf.isEmpty then
    (s, header ++ s.stdoutBuf.map OutItem.block)
  else (s, header)

/-- One lifecycle hook invocation. -/
inductive Event
  | collect (r : CollectReport)
  | sessionStart
  | testStatus (r : TestReport)
  | logReport (r : TestReport)
  | sessionFinish
deriving DecidableEq, Repr

/-- Dispatch one event to its hook method. -/
def step (args : Args) (s : PState) : Event → Except PyErr (PState × List OutItem)
  | Event.collect r => pytest_collectreport args s r
  | Event.sessionStart => Except.ok (pytest_sessionstart s)
  | Event.testStatus r => pytest_report_teststatus args s r
  | Event.logReport r => pytest_runtest_logreport args s r
  | Event.sessionFinish => Except.ok (pytest_sessionfinish args s)

/-- Process a sequence of events, concatenating the console stream; an
uncaught Python exception aborts the run. -/
def run (args : Args) (s : PState) : List Event → Except PyErr (PState × List OutItem)
  | [] => Except.ok (s, [])
  | e :: rest =>
    match step args s e with
    | Except.error err => Except.error err
    | Except.ok (s', o1) =>
      match run args s' rest with
      | Except.error err => Except.error err
      | Except.ok (s'', o2) => Except.ok (s'', o1 ++ o2)

/-- The run as an optional final state and stream. -/
def runOutcome (args : Args) (evs : List Event) : Option (PState × List OutItem) :=
  match run args initState evs with
  | Except.ok p => Option.some p
  | Except.error _ => Option.none

/-- Is this item the standalone marker printed for node `n`? -/
def isMarkerFor (n : String) : OutItem → Bool
  | OutItem.marker t _ => t = n
  | _ => false

/-- Number of standalone terminal markers printed for node `n`. -/
def markerCount (o : List OutItem) (n : String) : Nat :=
  (o.filter (isMarkerFor n)).length

/-- Is this item a detailed text box? -/
def isBlock : OutItem → Bool
  | OutItem.block _ => true
  | _ => false

/-- Titles of the detailed text boxes of a stream, in order. -/
def blockTitles (o : List OutItem) : List String :=
  o.filterMap (fun i =>
    match i with
    | OutItem.block b => Option.some b.title
    | _ => Option.none)

/-- Is this item the session-finish completion header? -/
def isFinishHeader : OutItem → Bool
  | OutItem.stepMaj m => m = "Test phase completed."
  | _ => false

/-- Every item strictly before the first session-finish header is not a
detailed text box. -/
def noBlockBeforeHeader : List OutItem → Bool
  | [] => true
  | i :: rest => isFinishHeader i || (!(isBlock i) && noBlockBeforeHeader rest)

/-- Credential inputs of the authentication chain: `args['oauth_token']`,
`args['username']`, `args['password']`. -/
structure AuthArgs where
  oauth_token : Option String
  username : Option String
  password : Option String
deriving DecidableEq, Repr

/-- Behaviour of the external DC/OS client during authentication:
the persisted `core.dcos_acs_token` value, whether `shakedown.dcos_leader()`
succeeds (it raises `DCOSException` otherwise), and the results of the
two token exchanges (`Option.none` models a raised exception). -/
structure Cluster where
  acsToken : Option String
  leaderOk : Bool
  oauthResult : String → Option String
  passwordResult : String → String → Option String

/-- One console message of the authentication chain. -/
inductive AuthMsg
  | stepMaj (msg : String)
  | stepMin (msg : String)
  | okMsg
  | errMsg (msg : String)
deriving DecidableEq, Repr

/-- Message of `click.secho("error: authentication failed.", ...)` (lines 97, 109, 121). -/
def authFailedMsg : String := "error: authentication failed."

/-- Message of `click.secho("error: no authentication credentials or token found.", ...)`
(line 123). -/
def noCredsMsg : String := "error: no authentication credentials or token found."

/-- The observable outcome of the authentication chain: the console
messages in order, the values written to `core.dcos_acs_token`, the
number of calls made to each client operation, the final `authenticated`
flag and the `sys.exit` status (`Option.none` when the CLI proceeds). -/
structure AuthResult where
  msgs : List AuthMsg
  tokenWrites : List String
  leaderCalls : Nat
  oauthCalls : Nat
  passwordCalls : Nat
  authenticated : Bool
  exitCode : Option Nat
deriving DecidableEq, Repr

/-- The authentication chain of `cli` (lines 86-124): validate a
pre-existing ACS token with `dcos_leader()` when one is present (`is not
None`), otherwise exchange a supplied OAuth token, otherwise exchange a
supplied username and password, persisting the new token on success of
either exchange; when nothing authenticated, print the
no-credentials-found error and `sys.exit(1)`. -/
def authChain (a : AuthArgs) (c : Cluster) : AuthResult :=
  let msgs0 := [AuthMsg.stepMaj "Authenticating with cluster..."]
  let (msgs1, leaderCalls1, auth1) :=
    match c.acsToken with
    | Option.some _ =>
      let m := msgs0 ++ [AuthMsg.stepMin "Validating existing ACS token..."]
      if c.leaderOk then (m ++ [AuthMsg.okMsg], 1, true)
      else (m ++ [AuthMsg.errMsg authFailedMsg], 1, false)
    | Option.none => (msgs0, 0, false)
  let (msgs2, oauthCalls2, writes2, auth2) :=
    if !auth1 && optTruthy a.oauth_token then
      let m := msgs1 ++ [AuthMsg.stepMin "Validating OAuth token..."]
      match c.oauthResult (a.oauth_token.getD "") with
      | Option.some t => (m ++ [AuthMsg.okMsg], 1, [t], true)
      | Option.none => (m ++ [AuthMsg.errMsg authFailedMsg], 1, [], false)
    else (msgs1, 0, [], auth1)
  let (msgs3, passwordCalls3, writes3, auth3) :=
    if !auth2 && (optTruthy a.username && optTruthy a.password) then
      let m := msgs2 ++ [AuthMsg.stepMin "Validating username and password..."]
      match c.passwordResult (a.username.getD "") (a.password.getD "") with
      | Option.some t => (m ++ [AuthMsg.okMsg], 1, [t], true)
      | Option.none => (m ++ [AuthMsg.errMsg authFailedMsg], 1, [], false)
    else (msgs2, 0, [], auth2)
  if !auth3 then
    { msgs := msgs3 ++ [AuthMsg.errMsg noCredsMsg]
      tokenWrites := writes2 ++ writes3
      leaderCalls := leaderCalls1
      oauthCalls := oauthCalls2
      passwordCalls := passwordCalls3
      authenticated := false
      exitCode := Option.some 1 }
  else
    { msgs := msgs3
      tokenWrites := writes2 ++ writes3
      leaderCalls := leaderCalls1
      oauthCalls := oauthCalls2
      passwordCalls := passwordCalls3
      authenticated := true
      exitCode := Option.none }

/-- Were any credential inputs supplied at all: a persisted ACS token, a
truthy OAuth token, or a truthy username together with a truthy
password? -/
def credsSupplied (a : AuthArgs) (c : Cluster) : Bool :=
  c.acsToken.isSome || optTruthy a.oauth_token || (optTruthy a.username && optTruthy a.password)

/-- Deferred-mode configuration with the default `--stdout fail` filter. -/
def argsDeferred : Args := { stdout := Option.some FilterC.fail, stdout_inline := false }

/-- Inline-mode configuration with the default `--stdout fail` filter. -/
def argsInline : Args := { stdout := Option.some FilterC.fail, stdout_inline := true }

/-- Deferred-mode configuration with `--stdout skip`. -/
def argsSkipFilter : Args := { stdout := Option.some FilterC.skip, stdout_inline := false }

/-- Deferred-mode configuration with `--stdout all`. -/
def argsAllFilter : Args := { stdout := Option.some FilterC.all, stdout_inline := false }

/-- Configuration with the filter choice given and the timing mode a
parameter. -/
def argsWith (inline : Bool) : Args := { stdout := Option.some FilterC.fail, stdout_inline := inline }

/-- A teardown status report for node `a::t` with no captured sections. -/
def tsTeardown : TestReport :=
  { nodeid := "a::t", when := When.teardown, failed := false, passed := true, skipped := false,
    sections := [], reprcrash := Option.none }

/-- A failed status report whose node id has no `"::"` separator. -/
def tsMalformed : TestReport :=
  { nodeid := "plaintest", when := When.call, failed := true, passed := false, skipped := false,
    sections := [], reprcrash := Option.none }

/-- A log report with a captured setup section for a node id that no
status event has registered. -/
def lrUnregistered : TestReport :=
  { nodeid := "a::t", when := When.setup, failed := false, passed := true, skipped := false,
    sections := [("Captured stderr setup", "boom")], reprcrash := Option.none }

/-- A call-phase status report for node `n` with the given outcome flags. -/
def tsCall (n : String) (f p sk : Bool) : TestReport :=
  { nodeid := n, when := When.call, failed := f, passed := p, skipped := sk,
    sections := [], reprcrash := Option.none }

/-- A call-phase log report for node `n` carrying one captured-stdout
section with text `t`. -/
def lrCall (n : String) (f p sk : Bool) (t : String) : TestReport :=
  { nodeid := n, when := When.call, failed := f, passed := p, skipped := sk,
    sections := [("Captured stdout call", t)], reprcrash := Option.none }

/-- The three-node scenario of the spec: node `a::t1` passes, `a::t2`
fails and `a::t3` is skipped, each producing captured call output, then
the session finishes. -/
def c7events (t1 t2 t3 : String) : List Event :=
  [Event.testStatus (tsCall "a::t1" false true false),
   Event.logReport (lrCall "a::t1" false true false t1),
   Event.testStatus (tsCall "a::t2" true false false),
   Event.logReport (lrCall "a::t2" true false false t2),
   Event.testStatus (tsCall "a::t3" false false true),
   Event.logReport (lrCall "a::t3" false false true t3),
   Event.sessionFinish]

/-- A cluster with no persisted token where every probe and exchange
fails. -/
def clusterAllFail : Cluster :=
  { acsToken := Option.none
    leaderOk := false
    oauthResult := fun _ => Option.none
    passwordResult := fun _ _ => Option.none }

/-- A cluster with a persisted token whose validation probe succeeds. -/
def clusterTokenOk : Cluster :=
  { acsToken := Option.some "persisted"
    leaderOk := true
    oauthResult := fun _ => Option.none
    passwordResult := fun _ _ => Option.none }

/-- No credential inputs at all. -/
def authArgsNone : AuthArgs :=
  { oauth_token := Option.none, username := Option.none, password := Option.none }

/-- Only an OAuth token supplied. -/
def authArgsOauth : AuthArgs :=
  { oauth_token := Option.some "tok", username := Option.none, password := Option.none }

/-- A plugin state in which node `a::t` is registered with its `'tested'`
flag set. -/
def stateTested : PState :=
  { tests := [("a::t", { fail := false, setup := false, tested := true })] }

/-- No item of the stream is a detailed text box. -/
def noBlocks (o : List OutItem) : Bool := o.all (fun i => !(isBlock i))

theorem lookupNode_append_of_some {ts : List (String × NodeFlags)} {n : String} {v : NodeFlags}
    (l2 : List (String × NodeFlags)) (h : lookupNode ts n = Option.some v) :
    lookupNode (ts ++ l2) n = Option.some v := by
  induction ts with
  | nil => simp [lookupNode] at h
  | cons p rest ih =>
    by_cases hk : p.1 = n
    · simp only [List.cons_append, lookupNode, hk, if_pos] at h ⊢
      exact h
    · simp only [List.cons_append, lookupNode, hk, if_neg, if_false] at h ⊢
      exact ih h

theorem lookupNode_append_of_none {ts : List (String × NodeFlags)} {n : String}
    (l2 : List (String × NodeFlags)) (h : lookupNode ts n = Option.none) :
    lookupNode (ts ++ l2) n = lookupNode l2 n := by
  induction ts with
  | nil => simp
  | cons p rest ih =>
    by_cases hk : p.1 = n
    · simp [lookupNode, hk] at h
    · simp only [List.cons_append, lookupNode, hk, if_neg, if_false] at h ⊢
      exact ih h

theorem lookupNode_updateNode (ts : List (String × NodeFlags)) (id : String)
    (f : NodeFlags → NodeFlags) (n : String) :
    lookupNode (updateNode ts id f) n =
      if n = id then Option.map f (lookupNode ts n) else lookupNode ts n := by
  induction ts with
  | nil => by_cases hn : n = id <;> simp [lookupNode, updateNode, hn]
  | cons p rest ih =>
    obtain ⟨k, w⟩ := p
    show lookupNode ((if k = id then (k, f w) else (k, w)) :: updateNode rest id f) n = _
    by_cases hk : k = id
    · rw [if_pos hk]
      by_cases hn : k = n
      · have hni : n = id := hn.symm.trans hk
        simp [lookupNode, hn, hni]
      · have hni : ¬(n = id) := fun hc => hn (hk.trans hc.symm)
        simp [lookupNode, hn, hni, ih]
    · rw [if_neg hk]
      by_cases hn : k = n
      · have hni : ¬(n = id) := fun hc => hk (hn.trans hc)
        simp [lookupNode, hn, hni]
      · simp [lookupNode, hn, ih]

theorem nodeTested_updateNode_preserve (ts : List (String × NodeFlags)) (id : String)
    (f : NodeFlags → NodeFlags) (hf : ∀ fl, (f fl).tested = fl.tested) (n : String) :
    nodeTested (updateNode ts id f) n = nodeTested ts n := by
  unfold nodeTested
  rw [lookupNode_updateNode]
  by_cases h : n = id
  · simp only [h, if_pos]
    cases lookupNode ts id <;> simp [hf]
  · simp [h]

theorem nodeTested_updateNode_other {n id : String} (hne : ¬(n = id))
    (ts : List (String × NodeFlags)) (f : NodeFlags → NodeFlags) :
    nodeTested (updateNode ts id f) n = nodeTested ts n := by
  unfold nodeTested
  rw [lookupNode_updateNode]
  simp [hne]

theorem nodeTested_append {ts : List (String × NodeFlags)} {n : String}
    (l2 : List (String × NodeFlags)) (h : nodeTested ts n = true) :
    nodeTested (ts ++ l2) n = true := by
  unfold nodeTested at h ⊢
  cases hlk : lookupNode ts n with
  | none => rw [hlk] at h; simp at h
  | some fl => rw [hlk] at h; rw [lookupNode_append_of_some l2 hlk]; exact h

theorem markerCount_append (a b : List OutItem) (n : String) :
    markerCount (a ++ b) n = markerCount a n + markerCount b n := by
  simp [markerCount, List.filter_append]

theorem markerCount_nil (n : String) : markerCount [] n = 0 := rfl

theorem noBlocks_append {a b : List OutItem} :
    noBlocks (a ++ b) = (noBlocks a && noBlocks b) := by
  simp [noBlocks, List.all_append]

theorem noBlocks_nil : noBlocks [] = true := rfl

theorem noBlocks_cons (i : OutItem) (rest : List OutItem) :
    noBlocks (i :: rest) = (!(isBlock i) && noBlocks rest) := by
  simp [noBlocks]

theorem statusItems_noBlocks (args : Args) (t : String) (st : St) (txt : Option String)
    (b : Bool) : noBlocks (outputStatusItems args t st txt b) = true := by
  unfold outputStatusItems
  split
  · split
    · cases st <;> simp [noBlocks, isBlock]
    · split
      · cases st <;> simp [noBlocks, isBlock]
      · simp [noBlocks]
  · simp [noBlocks]

theorem statusItems_marker_other {t n : String} (hne : ¬(t = n)) (args : Args) (st : St)
    (txt : Option String) (b : Bool) :
    markerCount (outputStatusItems args t st txt b) n = 0 := by
  unfold outputStatusItems
  split
  · split
    · cases st <;> simp [markerCount, isMarkerFor, hne]
    · split
      · cases st <;> simp [markerCount, isMarkerFor, hne]
      · simp [markerCount]
  · simp [markerCount]

theorem statusItems_status_false (args : Args) (t : String) (st : St) (txt : Option String) :
    outputStatusItems args t st txt false = [] := rfl

theorem statusItems_noMarkers_of_false (args : Args) (t : String) (st : St)
    (txt : Option String) (n : String) :
    markerCount (outputStatusItems args t st txt false) n = 0 := rfl

theorem output_ok_state {args : Args} {s : PState} {t : String} {st : St} {txt : Option String}
    {b : Bool} {s' : PState} {o : List OutItem}
    (h : output args s t st txt b = Except.ok (s', o)) :
    s' = s ∨ ∃ bl, s' = { s with stdoutBuf := s.stdoutBuf ++ [bl] } := by
  dsimp only [output] at h
  repeat' split at h
  all_goals try cases h
  all_goals first
    | exact Or.inl rfl
    | exact Or.inr ⟨_, rfl⟩

theorem output_tests_eq {args : Args} {s : PState} {t : String} {st : St} {txt : Option String}
    {b : Bool} {s' : PState} {o : List OutItem}
    (h : output args s t st txt b = Except.ok (s', o)) : s'.tests = s.tests := by
  rcases output_ok_state h with rfl | ⟨bl, rfl⟩ <;> rfl

theorem output_stats_eq {args : Args} {s : PState} {t : String} {st : St} {txt : Option String}
    {b : Bool} {s' : PState} {o : List OutItem}
    (h : output args s t st txt b = Except.ok (s', o)) :
    s'.report_stats = s.report_stats := by
  rcases output_ok_state h with rfl | ⟨bl, rfl⟩ <;> rfl

theorem output_inline_state {args : Args} {s : PState} {t : String} {st : St}
    {txt : Option String} {b : Bool} {s' : PState} {o : List OutItem}
    (hi : args.stdout_inline = true) (h : output args s t st txt b = Except.ok (s', o)) :
    s' = s := by
  dsimp only [output] at h
  repeat' split at h
  all_goals try cases h
  all_goals first
    | rfl
    | simp_all

theorem output_marker_other {args : Args} {s : PState} {t : String} {st : St}
    {txt : Option String} {b : Bool} {s' : PState} {o : List OutItem} {n : String}
    (hne : ¬(t = n)) (h : output args s t st txt b = Except.ok (s', o)) :
    markerCount o n = 0 := by
  dsimp only [output] at h
  repeat' split at h
  all_goals try cases h
  all_goals first
    | (rw [markerCount_append, statusItems_marker_other hne]
       simp [markerCount, isMarkerFor])
    | exact statusItems_marker_other hne args st txt b

theorem output_status_false_markers {args : Args} {s : PState} {t : String} {st : St}
    {txt : Option String} {s' : PState} {o : List OutItem} {n : String}
    (h : output args s t st txt false = Except.ok (s', o)) : markerCount o n = 0 := by
  dsimp only [output] at h
  repeat' split at h
  all_goals try cases h
  all_goals first
    | (rw [markerCount_append, statusItems_noMarkers_of_false]
       simp [markerCount, isMarkerFor])
    | exact statusItems_noMarkers_of_false args t st txt n

theorem output_noBlocks_deferred {args : Args} {s : PState} {t : String} {st : St}
    {txt : Option String} {b : Bool} {s' : PState} {o : List OutItem}
    (hi : args.stdout_inline = false) (h : output args s t st txt b = Except.ok (s', o)) :
    noBlocks o = true := by
  dsimp only [output] at h
  repeat' split at h
  all_goals try cases h
  all_goals first
    | exact statusItems_noBlocks args t st txt b
    | simp_all

theorem output_pass_none (args : Args) (s : PState) (t : String) :
    output args s t St.pass Option.none true = Except.ok (s, [OutItem.marker t St.pass]) := by
  dsimp only [output, outputStatusItems, optTruthy]
  cases args.stdout_inline <;> simp [filterMatches]

theorem processOneSection_stats {args : Args} {r : TestReport} {st? : Option St} {s : PState}
    {secname content : String} {s' : PState} {o : List OutItem}
    (h : processOneSection args r st? s secname content = Except.ok (s', o)) :
    s'.report_stats = s.report_stats := by
  dsimp only [processOneSection] at h
  repeat' split at h
  all_goals try cases h
  all_goals first
    | rfl
    | exact (output_stats_eq h).trans rfl

theorem processSections_stats {args : Args} {r : TestReport} {st? : Option St} :
    ∀ (secs : List (String × String)) (s s' : PState) (o : List OutItem),
      processSections args r st? s secs = Except.ok (s', o) →
      s'.report_stats = s.report_stats := by
  intro secs
  induction secs with
  | nil =>
    intro s s' o h
    cases h
    rfl
  | cons sec rest ih =>
    intro s s' o h
    obtain ⟨sn, ct⟩ := sec
    dsimp only [processSections] at h
    split at h
    · cases h
    · rename_i s1 o1 heq1
      split at h
      · cases h
      · rename_i s2 o2 heq2
        cases h
        exact (ih _ _ _ heq2).trans (processOneSection_stats heq1)

theorem logreport_stats {args : Args} {s : PState} {r : TestReport} {s' : PState}
    {o : List OutItem} (h : pytest_runtest_logreport args s r = Except.ok (s', o)) :
    s'.report_stats = s.report_stats := by
  dsimp only [pytest_runtest_logreport] at h
  split at h
  · cases h
  · rename_i s1 o1 heq1
    split at h
    · cases h
      exact processSections_stats _ _ _ _ heq1
    · rename_i crash
      split at h
      · cases h
      · rename_i fl hlk
        split at h
        · split at h
          · rename_i s2 o2 heq2
            cases h
            have hps : s1.report_stats = s.report_stats := processSections_stats _ _ _ _ heq1
            rw [output_stats_eq heq2]
            exact hps
          · cases h
        · split at h
          · rename_i s2 o2 heq2
            cases h
            have hps : s1.report_stats = s.report_stats := processSections_stats _ _ _ _ heq1
            rw [output_stats_eq heq2]
            exact hps
          · cases h

theorem teststatus_stats {args : Args} {s : PState} {r : TestReport} {s' : PState}
    {o : List OutItem} (h : pytest_report_teststatus args s r = Except.ok (s', o)) :
    s'.report_stats = s.report_stats := by
  dsimp only [pytest_report_teststatus, teststatusHeaders, teststatusFailFlag] at h
  repeat' split at h
  all_goals try cases h
  all_goals first
    | rfl
    | (rename_i heq
       rw [output_stats_eq heq]
       try rfl
       repeat' split
       all_goals rfl)
    | (repeat' split
       all_goals rfl)

theorem collectreport_stats {args : Args} {s : PState} {r : CollectReport} {s' : PState}
    {o : List OutItem} (h : pytest_collectreport args s r = Except.ok (s', o)) :
    s'.report_stats = s.report_stats := by
  dsimp only [pytest_collectreport] at h
  repeat' split at h
  all_goals try cases h
  all_goals first
    | rfl
    | (rename_i heq
       rw [output_stats_eq heq]
       try rfl
       repeat' split
       all_goals rfl)
    | (repeat' split
       all_goals rfl)

theorem step_stats {args : Args} {s : PState} {e : Event} {s' : PState} {o : List OutItem}
    (h : step args s e = Except.ok (s', o)) : s'.report_stats = s.report_stats := by
  cases e with
  | collect r => exact collectreport_stats h
  | sessionStart => cases h; rfl
  | testStatus r => exact teststatus_stats h
  | logReport r => exact logreport_stats h
  | sessionFinish =>
    dsimp only [step, pytest_sessionfinish] at h
    split at h <;> (cases h; rfl)

theorem processOneSection_noBlocks {args : Args} {r : TestReport} {st? : Option St} {s : PState}
    {secname content : String} {s' : PState} {o : List OutItem}
    (hi : args.stdout_inline = false)
    (h : processOneSection args r st? s secname content = Except.ok (s', o)) :
    noBlocks o = true := by
  dsimp only [processOneSection] at h
  repeat' split at h
  all_goals try cases h
  all_goals first
    | rfl
    | exact output_noBlocks_deferred hi h

theorem processSections_noBlocks {args : Args} {r : TestReport} {st? : Option St}
    (hi : args.stdout_inline = false) :
    ∀ (secs : List (String × String)) (s s' : PState) (o : List OutItem),
      processSections args r st? s secs = Except.ok (s', o) → noBlocks o = true := by
  intro secs
  induction secs with
  | nil =>
    intro s s' o h
    cases h
    rfl
  | cons sec rest ih =>
    intro s s' o h
    obtain ⟨sn, ct⟩ := sec
    dsimp only [processSections] at h
    split at h
    · cases h
    · rename_i s1 o1 heq1
      split at h
      · cases h
      · rename_i s2 o2 heq2
        cases h
        rw [noBlocks_append]
        simp [processOneSection_noBlocks hi heq1, ih _ _ _ heq2]

theorem logreport_noBlocks {args : Args} {s : PState} {r : TestReport} {s' : PState}
    {o : List OutItem} (hi : args.stdout_inline = false)
    (h : pytest_runtest_logreport args s r = Except.ok (s', o)) : noBlocks o = true := by
  dsimp only [pytest_runtest_logreport] at h
  split at h
  · cases h
  · rename_i s1 o1 heq1
    have hb1 : noBlocks o1 = true := processSections_noBlocks hi _ _ _ _ heq1
    split at h
    · cases h
      exact hb1
    · rename_i crash
      split at h
      · cases h
      · rename_i fl hlk
        split at h
        · split at h
          · rename_i s2 o2 heq2
            cases h
            have hb2 := output_noBlocks_deferred hi heq2
            simp [noBlocks_append, noBlocks_nil, hb1, hb2, hi]
          · cases h
        · split at h
          · rename_i s2 o2 heq2
            cases h
            have hb2 := output_noBlocks_deferred hi heq2
            simp [noBlocks_append, hb1, hb2]
          · cases h

theorem teststatus_noBlocks {args : Args} {s : PState} {r : TestReport} {s' : PState}
    {o : List OutItem} (hi : args.stdout_inline = false)
    (h : pytest_report_teststatus args s r = Except.ok (s', o)) : noBlocks o = true := by
  dsimp only [pytest_report_teststatus, teststatusHeaders, teststatusFailFlag] at h
  repeat' split at h
  all_goals try cases h
  all_goals repeat' split
  all_goals try (rename_i heq; exact output_noBlocks_deferred hi heq)
  all_goals try (rename_i heq; have hb := output_noBlocks_deferred hi heq; simp [noBlocks_append, noBlocks_cons, noBlocks_nil, isBlock, hi, hb])
  all_goals simp_all [noBlocks_append, noBlocks_cons, noBlocks_nil, isBlock]

theorem collectreport_noBlocks {args : Args} {s : PState} {r : CollectReport} {s' : PState}
    {o : List OutItem} (hi : args.stdout_inline = false)
    (h : pytest_collectreport args s r = Except.ok (s', o)) : noBlocks o = true := by
  dsimp only [pytest_collectreport] at h
  repeat' split at h
  all_goals try cases h
  all_goals repeat' split
  all_goals try (rename_i heq; exact output_noBlocks_deferred hi heq)
  all_goals try (rename_i heq; have hb := output_noBlocks_deferred hi heq; simp [noBlocks_append, noBlocks_cons, noBlocks_nil, isBlock, hi, hb])
  all_goals simp_all [noBlocks_append, noBlocks_cons, noBlocks_nil, isBlock]

theorem step_noBlocks {args : Args} {s : PState} {e : Event} {s' : PState} {o : List OutItem}
    (hi : args.stdout_inline = false) (hne : ¬(e = Event.sessionFinish))
    (h : step args s e = Except.ok (s', o)) : noBlocks o = true := by
  cases e with
  | collect r => exact collectreport_noBlocks hi h
  | sessionStart =>
    cases h
    rfl
  | testStatus r => exact teststatus_noBlocks hi h
  | logReport r => exact logreport_noBlocks hi h
  | sessionFinish => exact absurd rfl hne

theorem teststatusHeaders_tests (args : Args) (s : PState) (f t id : String) :
    (teststatusHeaders args s f t id).1.tests =
      if (lookupNode s.tests id).isSome then s.tests
      else s.tests ++ [(id, ({} : NodeFlags))] := by
  dsimp only [teststatusHeaders]
  cases hts : s.testSeen <;> cases hfc : memberStr s.files f <;>
    cases hlk : lookupNode s.tests id <;> simp [hts, hfc, hlk]

theorem teststatusHeaders_stdoutBuf (args : Args) (s : PState) (f t id : String) :
    (teststatusHeaders args s f t id).1.stdoutBuf = s.stdoutBuf := by
  dsimp only [teststatusHeaders]
  cases hts : s.testSeen <;> cases hfc : memberStr s.files f <;>
    cases hlk : lookupNode s.tests id <;> simp [hts, hfc, hlk]

theorem teststatusHeaders_stats (args : Args) (s : PState) (f t id : String) :
    (teststatusHeaders args s f t id).1.report_stats = s.report_stats := by
  dsimp only [teststatusHeaders]
  cases hts : s.testSeen <;> cases hfc : memberStr s.files f <;>
    cases hlk : lookupNode s.tests id <;> simp [hts, hfc, hlk]

theorem teststatusHeaders_noMarkers (args : Args) (s : PState) (f t id n : String) :
    markerCount (teststatusHeaders args s f t id).2 n = 0 := by
  dsimp only [teststatusHeaders]
  cases hts : s.testSeen <;> cases hfc : memberStr s.files f <;>
    cases hlk : lookupNode s.tests id <;> cases hin : args.stdout_inline <;>
    simp [hts, hfc, hlk, hin, markerCount, isMarkerFor, List.filter]

theorem teststatusFailFlag_nodeTested (s3 : PState) (r : TestReport) (n : String) :
    nodeTested (teststatusFailFlag s3 r).tests n = nodeTested s3.tests n := by
  dsimp only [teststatusFailFlag]
  split
  · exact nodeTested_updateNode_preserve s3.tests r.nodeid
      (fun fl => { fl with fail := true }) (fun _ => rfl) n
  · rfl

theorem teststatusFailFlag_stdoutBuf (s3 : PState) (r : TestReport) :
    (teststatusFailFlag s3 r).stdoutBuf = s3.stdoutBuf := by
  dsimp only [teststatusFailFlag]
  split <;> rfl

theorem teststatusFailFlag_lookup_isSome {s3 : PState} {r : TestReport} {id : String}
    (h : (lookupNode s3.tests id).isSome = true) :
    (lookupNode (teststatusFailFlag s3 r).tests id).isSome = true := by
  dsimp only [teststatusFailFlag]
  split
  · rw [lookupNode_updateNode]
    split
    · cases hlk : lookupNode s3.tests id with
      | none => rw [hlk] at h; simp at h
      | some v => simp
    · exact h
  · exact h

theorem processOneSection_inline {args : Args} {r : TestReport} {st? : Option St} {s : PState}
    {secname content : String} {s' : PState} {o : List OutItem}
    (hi : args.stdout_inline = true)
    (h : processOneSection args r st? s secname content = Except.ok (s', o)) :
    s'.stdoutBuf = s.stdoutBuf := by
  dsimp only [processOneSection] at h
  repeat' split at h
  all_goals try cases h
  all_goals first
    | rfl
    | rw [output_inline_state hi h]

theorem processSections_inline {args : Args} {r : TestReport} {st? : Option St}
    (hi : args.stdout_inline = true) :
    ∀ (secs : List (String × String)) (s s' : PState) (o : List OutItem),
      processSections args r st? s secs = Except.ok (s', o) →
      s'.stdoutBuf = s.stdoutBuf := by
  intro secs
  induction secs with
  | nil =>
    intro s s' o h
    cases h
    rfl
  | cons sec rest ih =>
    intro s s' o h
    obtain ⟨sn, ct⟩ := sec
    dsimp only [processSections] at h
    split at h
    · cases h
    · rename_i s1 o1 heq1
      split at h
      · cases h
      · rename_i s2 o2 heq2
        cases h
        exact (ih _ _ _ heq2).trans (processOneSection_inline hi heq1)

theorem logreport_inline {args : Args} {s : PState} {r : TestReport} {s' : PState}
    {o : List OutItem} (hi : args.stdout_inline = true)
    (h : pytest_runtest_logreport args s r = Except.ok (s', o)) :
    s'.stdoutBuf = s.stdoutBuf := by
  dsimp only [pytest_runtest_logreport] at h
  split at h
  · cases h
  · rename_i s1 o1 heq1
    have hb1 : s1.stdoutBuf = s.stdoutBuf := processSections_inline hi _ _ _ _ heq1
    split at h
    · cases h
      exact hb1
    · rename_i crash
      split at h
      · cases h
      · rename_i fl hlk
        split at h
        · split at h
          · rename_i s2 o2 heq2
            cases h
            rw [output_inline_state hi heq2]
            exact hb1
          · cases h
        · split at h
          · rename_i s2 o2 heq2
            cases h
            rw [output_inline_state hi heq2]
            exact hb1
          · cases h

theorem teststatus_inline {args : Args} {s : PState} {r : TestReport} {s' : PState}
    {o : List OutItem} (hi : args.stdout_inline = true)
    (h : pytest_report_teststatus args s r = Except.ok (s', o)) :
    s'.stdoutBuf = s.stdoutBuf := by
  dsimp only [pytest_report_teststatus] at h
  split at h
  · cases h
    rfl
  · rename_i rf rt hsp
    have hb3 : (teststatusFailFlag (teststatusHeaders args s rf rt r.nodeid).1 r).stdoutBuf
        = s.stdoutBuf :=
      (teststatusFailFlag_stdoutBuf _ _).trans (teststatusHeaders_stdoutBuf args s rf rt r.nodeid)
    simp only [output_pass_none] at h
    split at h
    · cases h
      exact hb3
    · cases h
      exact hb3

theorem collectreport_inline {args : Args} {s : PState} {r : CollectReport} {s' : PState}
    {o : List OutItem} (hi : args.stdout_inline = true)
    (h : pytest_collectreport args s r = Except.ok (s', o)) :
    s'.stdoutBuf = s.stdoutBuf := by
  dsimp only [pytest_collectreport] at h
  repeat' split at h
  all_goals try cases h
  all_goals first
    | rfl
    | (rename_i heq
       rw [output_inline_state hi heq]
       try rfl
       repeat' split
       all_goals rfl)
    | (repeat' split
       all_goals rfl)

theorem step_inline_buf {args : Args} {s : PState} {e : Event} {s' : PState} {o : List OutItem}
    (hi : args.stdout_inline = true) (h : step args s e = Except.ok (s', o)) :
    s'.stdoutBuf = s.stdoutBuf := by
  cases e with
  | collect r => exact collectreport_inline hi h
  | sessionStart =>
    cases h
    rfl
  | testStatus r => exact teststatus_inline hi h
  | logReport r => exact logreport_inline hi h
  | sessionFinish =>
    dsimp only [step, pytest_sessionfinish] at h
    split at h <;> (cases h; rfl)

theorem processOneSection_tested {args : Args} {r : TestReport} {st? : Option St} {s : PState}
    {secname content : String} {s' : PState} {o : List OutItem} {n : String}
    (hT : nodeTested s.tests n = true)
    (h : processOneSection args r st? s secname content = Except.ok (s', o)) :
    markerCount o n = 0 ∧ nodeTested s'.tests n = true := by
  dsimp only [processOneSection] at h
  split at h
  · cases h
    exact ⟨rfl, hT⟩
  · rename_i st
    split at h
    · split at h
      · cases h
      · rename_i fl hlk
        split at h
        · refine ⟨output_status_false_markers h, ?_⟩
          have hts : s'.tests = updateNode s.tests r.nodeid (fun f => { f with setup := true }) :=
            output_tests_eq h
          rw [hts]
          rw [nodeTested_updateNode_preserve s.tests r.nodeid
            (fun f => { f with setup := true }) (fun _ => rfl) n]
          exact hT
        · cases h
          exact ⟨rfl, hT⟩
    · split at h
      · split at h
        · cases h
        · rename_i fl hlk
          split at h
          · refine ⟨output_status_false_markers h, ?_⟩
            have hts : s'.tests = s.tests := output_tests_eq h
            rw [hts]
            exact hT
          · rename_i hflt
            have hne : ¬(r.nodeid = n) := by
              intro hc
              subst hc
              unfold nodeTested at hT
              rw [hlk] at hT
              exact hflt hT
            refine ⟨output_marker_other hne h, ?_⟩
            have hts : s'.tests = updateNode s.tests r.nodeid (fun f => { f with tested := true }) :=
              output_tests_eq h
            rw [hts]
            rw [nodeTested_updateNode_other (fun hc => hne hc.symm)]
            exact hT
      · cases h
        exact ⟨rfl, hT⟩

theorem processSections_tested {args : Args} {r : TestReport} {st? : Option St} {n : String} :
    ∀ (secs : List (String × String)) (s s' : PState) (o : List OutItem),
      nodeTested s.tests n = true →
      processSections args r st? s secs = Except.ok (s', o) →
      markerCount o n = 0 ∧ nodeTested s'.tests n = true := by
  intro secs
  induction secs with
  | nil =>
    intro s s' o hT h
    cases h
    exact ⟨rfl, hT⟩
  | cons sec rest ih =>
    intro s s' o hT h
    obtain ⟨sn, ct⟩ := sec
    dsimp only [processSections] at h
    split at h
    · cases h
    · rename_i s1 o1 heq1
      split at h
      · cases h
      · rename_i s2 o2 heq2
        cases h
        obtain ⟨hm1, hT1⟩ := processOneSection_tested hT heq1
        obtain ⟨hm2, hT2⟩ := ih _ _ _ hT1 heq2
        refine ⟨?_, hT2⟩
        rw [markerCount_append, hm1, hm2]

theorem logreport_tested {args : Args} {s : PState} {r : TestReport} {s' : PState}
    {o : List OutItem} {n : String} (hT : nodeTested s.tests n = true)
    (h : pytest_runtest_logreport args s r = Except.ok (s', o)) :
    markerCount o n = 0 ∧ nodeTested s'.tests n = true := by
  dsimp only [pytest_runtest_logreport] at h
  split at h
  · cases h
  · rename_i s1 o1 heq1
    obtain ⟨hm1, hT1⟩ := processSections_tested _ _ _ _ hT heq1
    split at h
    · cases h
      exact ⟨hm1, hT1⟩
    · rename_i crash
      split at h
      · cases h
      · rename_i fl hlk
        split at h
        · split at h
          · rename_i s2 o2 heq2
            cases h
            have hts : s'.tests = s1.tests := output_tests_eq heq2
            refine ⟨?_, by rw [hts]; exact hT1⟩
            rw [markerCount_append, markerCount_append, hm1,
              output_status_false_markers heq2]
            cases args.stdout_inline <;> rfl
          · cases h
        · rename_i hflt
          split at h
          · rename_i s2 o2 heq2
            cases h
            have hne : ¬(r.nodeid = n) := by
              intro hc
              subst hc
              unfold nodeTested at hT1
              rw [hlk] at hT1
              exact hflt hT1
            have hts : s'.tests
                = updateNode s1.tests r.nodeid (fun f => { f with tested := true }) :=
              output_tests_eq heq2
            refine ⟨?_, ?_⟩
            · rw [markerCount_append, hm1, output_marker_other hne heq2]
            · rw [hts]
              rw [nodeTested_updateNode_other (fun hc => hne hc.symm)]
              exact hT1
          · cases h

theorem teststatus_tested {args : Args} {s : PState} {r : TestReport} {s' : PState}
    {o : List OutItem} {n : String} (hT : nodeTested s.tests n = true)
    (h : pytest_report_teststatus args s r = Except.ok (s', o)) :
    markerCount o n = 0 ∧ nodeTested s'.tests n = true := by
  dsimp only [pytest_report_teststatus] at h
  split at h
  · cases h
    exact ⟨rfl, hT⟩
  · rename_i rf rt hsp
    have hmk := teststatusHeaders_noMarkers args s rf rt r.nodeid n
    have hT3 : nodeTested (teststatusHeaders args s rf rt r.nodeid).1.tests n = true := by
      rw [teststatusHeaders_tests]
      split
      · exact hT
      · exact nodeTested_append _ hT
    have hT4 : nodeTested (teststatusFailFlag (teststatusHeaders args s rf rt r.nodeid).1 r).tests
        n = true := by
      rw [teststatusFailFlag_nodeTested]
      exact hT3
    simp only [output_pass_none] at h
    split at h
    · rename_i hc
      cases h
      have hne : ¬(r.nodeid = n) := by
        intro hcn
        subst hcn
        rw [Bool.and_eq_true] at hc
        rw [hT4] at hc
        simp at hc
      refine ⟨?_, hT4⟩
      rw [markerCount_append, hmk]
      simp [markerCount, isMarkerFor, hne]
    · cases h
      exact ⟨hmk, hT4⟩

theorem teststatus_ok_and_registered (args : Args) (s : PState) (r : TestReport)
    (p : String × String) (hsp : splitNode r.nodeid = Option.some p) :
    ∃ s' o, pytest_report_teststatus args s r = Except.ok (s', o) ∧
      (lookupNode s'.tests r.nodeid).isSome = true := by
  obtain ⟨rf, rt⟩ := p
  have hreg : (lookupNode
      (teststatusFailFlag (teststatusHeaders args s rf rt r.nodeid).1 r).tests r.nodeid).isSome
      = true := by
    apply teststatusFailFlag_lookup_isSome
    rw [teststatusHeaders_tests]
    cases hlk : lookupNode s.tests r.nodeid with
    | some v => simp [hlk]
    | none =>
      rw [if_neg (by simp [hlk])]
      rw [lookupNode_append_of_none _ hlk]
      simp [lookupNode]
  dsimp only [pytest_report_teststatus]
  simp only [hsp]
  simp only [output_pass_none]
  split
  · exact ⟨_, _, rfl, hreg⟩
  · exact ⟨_, _, rfl, hreg⟩

theorem processOneSection_keyerror (args : Args) (r : TestReport) (st : St) (s : PState)
    (secname content : String) (hlk : lookupNode s.tests r.nodeid = Option.none)
    (hsec : ¬(secname = "Captured stdout call")) :
    processOneSection args r (Option.some st) s secname content
      = Except.error (PyErr.keyError r.nodeid) := by
  dsimp only [processOneSection]
  rw [if_pos hsec, hlk]

theorem logreport_keyerror (args : Args) (s : PState) (r : TestReport) (st : St)
    (secname content : String) (rest : List (String × String))
    (hlk : lookupNode s.tests r.nodeid = Option.none) (hst : stateOf r = Option.some st)
    (hsec : ¬(secname = "Captured stdout call"))
    (hsecs : r.sections = (secname, content) :: rest) :
    pytest_runtest_logreport args s r = Except.error (PyErr.keyError r.nodeid) := by
  dsimp only [pytest_runtest_logreport]
  rw [hsecs, hst]
  dsimp only [processSections]
  rw [processOneSection_keyerror args r st s secname content hlk hsec]

theorem step_finish_shape (args : Args) (s : PState) :
    step args s Event.sessionFinish = Except.ok (s,
      OutItem.stepMaj "Test phase completed." ::
        (if args.stdout.isSome && !s.stdoutBuf.isEmpty then s.stdoutBuf.map OutItem.block
         else [])) := by
  dsimp only [step, pytest_sessionfinish]
  split <;> rename_i hc <;> simp [hc]

theorem noBlockBeforeHeader_append {o1 o2 : List OutItem} (h1 : noBlocks o1 = true)
    (h2 : noBlockBeforeHeader o2 = true) : noBlockBeforeHeader (o1 ++ o2) = true := by
  induction o1 with
  | nil => simpa
  | cons i rest ih =>
    rw [noBlocks_cons, Bool.and_eq_true] at h1
    simp only [List.cons_append, noBlockBeforeHeader]
    simp [h1.1, ih h1.2]

theorem run_stats {args : Args} :
    ∀ (evs : List Event) (s s' : PState) (o : List OutItem),
      run args s evs = Except.ok (s', o) → s'.report_stats = s.report_stats := by
  intro evs
  induction evs with
  | nil =>
    intro s s' o h
    cases h
    rfl
  | cons e rest ih =>
    intro s s' o h
    dsimp only [run] at h
    split at h
    · cases h
    · rename_i s1 o1 heq1
      split at h
      · cases h
      · rename_i s2 o2 heq2
        cases h
        exact (ih _ _ _ heq2).trans (step_stats heq1)

theorem run_inline_buf {args : Args} (hi : args.stdout_inline = true) :
    ∀ (evs : List Event) (s s' : PState) (o : List OutItem),
      run args s evs = Except.ok (s', o) → s'.stdoutBuf = s.stdoutBuf := by
  intro evs
  induction evs with
  | nil =>
    intro s s' o h
    cases h
    rfl
  | cons e rest ih =>
    intro s s' o h
    dsimp only [run] at h
    split at h
    · cases h
    · rename_i s1 o1 heq1
      split at h
      · cases h
      · rename_i s2 o2 heq2
        cases h
        exact (ih _ _ _ heq2).trans (step_inline_buf hi heq1)

theorem run_noBlockBeforeHeader {args : Args} (hi : args.stdout_inline = false) :
    ∀ (evs : List Event) (s s' : PState) (o : List OutItem),
      run args s evs = Except.ok (s', o) → noBlockBeforeHeader o = true := by
  intro evs
  induction evs with
  | nil =>
    intro s s' o h
    cases h
    rfl
  | cons e rest ih =>
    intro s s' o h
    dsimp only [run] at h
    split at h
    · cases h
    · rename_i s1 o1 heq1
      split at h
      · cases h
      · rename_i s2 o2 heq2
        cases h
        by_cases hfin : e = Event.sessionFinish
        · subst hfin
          rw [step_finish_shape] at heq1
          cases heq1
          simp [noBlockBeforeHeader, isFinishHeader]
        · exact noBlockBeforeHeader_append (step_noBlocks hi hfin heq1) (ih _ _ _ heq2)

theorem authChain_failure_shape (a : AuthArgs) (c : Cluster)
    (h : (authChain a c).authenticated = false) :
    (authChain a c).exitCode = Option.some 1 ∧
    (authChain a c).msgs.getLast? = Option.some (AuthMsg.errMsg noCredsMsg) ∧
    (credsSupplied a c = true ↔ AuthMsg.errMsg authFailedMsg ∈ (authChain a c).msgs) := by
  unfold authChain credsSupplied at *
  cases hct : c.acsToken <;> cases hl : c.leaderOk <;> cases ho : optTruthy a.oauth_token <;>
    cases hoa : c.oauthResult (a.oauth_token.getD "") <;>
    cases hup : (optTruthy a.username && optTruthy a.password) <;>
    cases hpw : c.passwordResult (a.username.getD "") (a.password.getD "") <;>
    simp_all [noCredsMsg, authFailedMsg, List.getLast?_concat]

/-- Claim C1 counterexample: the claim says each test node id produces at
most one terminal marker for any event sequence.  Two teardown status
events for node `a::t` print two `'pass'` markers for that id, because
the teardown branch of `pytest_report_teststatus` (lines 251-252) emits
the marker without setting the node's `'tested'` flag. -/
theorem C1_counterexample :
    (runOutcome argsDeferred [Event.testStatus tsTeardown, Event.testStatus tsTeardown]).map
      (fun p => markerCount p.2 "a::t") = Option.some 2 := rfl

/-- Claim C1 amended: once a node's `'tested'` flag is set, no later
status or log-report event emits a marker for that node, and the flag
(the recorded finalization) persists; multiple markers are possible only
through the teardown branch, which never sets the flag. -/
theorem C1_amended_theorem (args : Args) (s : PState) (r : TestReport) (n : String)
    (e : Event) (hT : nodeTested s.tests n = true)
    (he : e = Event.testStatus r ∨ e = Event.logReport r)
    (s' : PState) (o : List OutItem) (h : step args s e = Except.ok (s', o)) :
    markerCount o n = 0 ∧ nodeTested s'.tests n = true := by
  rcases he with rfl | rfl
  · exact teststatus_tested hT h
  · exact logreport_tested hT h

/-- Claim C1 witness: the amended theorem applied to a teardown status
event for the already-finalized node `a::t`. -/
theorem C1_witness :
    markerCount [OutItem.stepMin "Running individual tests...", OutItem.itemMaj "a"] "a::t" = 0 ∧
    nodeTested ({ stateTested with testSeen := true, files := ["a"] } : PState).tests "a::t"
      = true :=
  C1_amended_theorem argsDeferred stateTested tsTeardown "a::t" (Event.testStatus tsTeardown)
    (by rfl) (Or.inl rfl)
    ({ stateTested with testSeen := true, files := ["a"] })
    [OutItem.stepMin "Running individual tests...", OutItem.itemMaj "a"] (by rfl)

/-- Claim C2 counterexample: the claim says a run in which credentials
were supplied but every exchange failed is reported as
AuthenticationFailed, distinct from NoCredentialsFound.  With an OAuth
token supplied and its exchange failing, the chain's final fatal message
is still the no-credentials one, identical to the final message of a run
with no credential inputs at all; only the intermediate per-attempt
message differs. -/
theorem C2_counterexample :
    credsSupplied authArgsOauth clusterAllFail = true ∧
    (authChain authArgsOauth clusterAllFail).authenticated = false ∧
    (authChain authArgsOauth clusterAllFail).exitCode = Option.some 1 ∧
    (authChain authArgsOauth clusterAllFail).msgs.getLast?
      = Option.some (AuthMsg.errMsg noCredsMsg) ∧
    (authChain authArgsNone clusterAllFail).msgs.getLast?
      = Option.some (AuthMsg.errMsg noCredsMsg) :=
  ⟨rfl, rfl, rfl, rfl, rfl⟩

/-- Claim C2 amended: when no strategy succeeds the process exits with
status 1 and its final fatal message is always the no-credentials one;
the supplied-but-failed case is distinguished only by the per-attempt
"authentication failed" messages, which appear exactly when some
credential input was supplied. -/
theorem C2_amended_theorem (a : AuthArgs) (c : Cluster)
    (h : (authChain a c).authenticated = false) :
    (authChain a c).exitCode = Option.some 1 ∧
    (authChain a c).msgs.getLast? = Option.some (AuthMsg.errMsg noCredsMsg) ∧
    (credsSupplied a c = true ↔ AuthMsg.errMsg authFailedMsg ∈ (authChain a c).msgs) :=
  authChain_failure_shape a c h

/-- Claim C2 witness: the amended theorem applied to the run with a
failing OAuth token. -/
theorem C2_witness :
    (authChain authArgsOauth clusterAllFail).exitCode = Option.some 1 ∧
    (authChain authArgsOauth clusterAllFail).msgs.getLast?
      = Option.some (AuthMsg.errMsg noCredsMsg) ∧
    (credsSupplied authArgsOauth clusterAllFail = true ↔
      AuthMsg.errMsg authFailedMsg ∈ (authChain authArgsOauth clusterAllFail).msgs) :=
  C2_amended_theorem authArgsOauth clusterAllFail (by rfl)

/-- Claim C3 counterexample: the claim says every event referencing an
unregistered node id auto-registers it and is processed without failing.
A log report for the unregistered node `a::t` carrying a captured setup
section raises `KeyError` (line 273 indexes `tests['test'][nodeid]`
without registering). -/
theorem C3_counterexample :
    run argsDeferred initState [Event.logReport lrUnregistered]
      = Except.error (PyErr.keyError "a::t") := rfl

/-- Claim C3 amended: only status events auto-register: a status event
whose node id is well formed always succeeds and leaves the id
registered, while a log report for an unregistered id whose first
captured section is a non-call section (with an outcome set) raises
`KeyError`. -/
theorem C3_amended_theorem (args : Args) (s : PState) (r r' : TestReport)
    (p : String × String) (hsp : splitNode r.nodeid = Option.some p)
    (st : St) (secname content : String) (rest : List (String × String))
    (hlk : lookupNode s.tests r'.nodeid = Option.none) (hst : stateOf r' = Option.some st)
    (hsec : ¬(secname = "Captured stdout call"))
    (hsecs : r'.sections = (secname, content) :: rest) :
    (∃ s' o, step args s (Event.testStatus r) = Except.ok (s', o) ∧
      (lookupNode s'.tests r.nodeid).isSome = true) ∧
    step args s (Event.logReport r') = Except.error (PyErr.keyError r'.nodeid) := by
  constructor
  · exact teststatus_ok_and_registered args s r p hsp
  · exact logreport_keyerror args s r' st secname content rest hlk hst hsec hsecs

/-- Claim C3 witness: the amended theorem at the fresh state, a teardown
status event for `a::t` and a log report with a captured setup section
for the same (unregistered) id. -/
theorem C3_witness :
    (∃ s' o, step argsDeferred initState (Event.testStatus tsTeardown) = Except.ok (s', o) ∧
      (lookupNode s'.tests tsTeardown.nodeid).isSome = true) ∧
    step argsDeferred initState (Event.logReport lrUnregistered)
      = Except.error (PyErr.keyError lrUnregistered.nodeid) :=
  C3_amended_theorem argsDeferred initState tsTeardown lrUnregistered ("a", "t") (by rfl)
    St.pass "Captured stderr setup" "boom" [] (by rfl) (by rfl) (by decide) (by rfl)

/-- Claim C4 counterexample: the claim says the terminal marker glyph is
printed regardless of the content filter in both timing modes.  In
inline mode, a passing node with captured text under filter `fail`
renders nothing at all: no standalone marker and no text box. -/
theorem C4_counterexample :
    output argsInline initState "a::t" St.pass (Option.some "captured") true
      = Except.ok (initState, []) := rfl

/-- Claim C4 amended: with status marking enabled and a pass or fail
outcome, the standalone marker is always printed in deferred mode; in
inline mode it is printed only when there is no captured text, and with
captured text the only rendering is the text box itself, shown exactly
when the filter matches (so a filtered-out result prints no marker). -/
theorem C4_amended_theorem (args : Args) (s : PState) (t : String) (st : St)
    (text : Option String) (s' : PState) (o : List OutItem)
    (hst : st = St.pass ∨ st = St.fail)
    (h : output args s t st text true = Except.ok (s', o)) :
    (args.stdout_inline = false → markerCount o t = 1) ∧
    (args.stdout_inline = true → optTruthy text = false → markerCount o t = 1) ∧
    (args.stdout_inline = true → optTruthy text = true →
      markerCount o t = 0 ∧
      (o.filter isBlock).length = (if filterMatches args.stdout st then 1 else 0)) := by
  dsimp only [output, outputStatusItems] at h
  rcases hst with rfl | rfl <;>
    (repeat' split at h) <;>
    (try cases h) <;>
    (try subst_eqs) <;>
    simp_all [markerCount, isMarkerFor, isBlock]

/-- Claim C4 witness: the amended theorem at a deferred-mode passing
result with captured text and filter `fail`. -/
theorem C4_witness :
    (argsDeferred.stdout_inline = false →
      markerCount [OutItem.marker "n::t" St.pass] "n::t" = 1) ∧
    (argsDeferred.stdout_inline = true → optTruthy (Option.some "x") = false →
      markerCount [OutItem.marker "n::t" St.pass] "n::t" = 1) ∧
    (argsDeferred.stdout_inline = true → optTruthy (Option.some "x") = true →
      markerCount [OutItem.marker "n::t" St.pass] "n::t" = 0 ∧
      ([OutItem.marker "n::t" St.pass].filter isBlock).length
        = (if filterMatches argsDeferred.stdout St.pass then 1 else 0)) :=
  C4_amended_theorem argsDeferred initState "n::t" St.pass (Option.some "x") initState
    [OutItem.marker "n::t" St.pass] (Or.inl rfl) (by rfl)

/-- Claim C5: the claim says a skip outcome renders a distinct labeled
status line and that rendering a skip with captured text under filter
`skip` or `all` completes without error.  Evaluating `output` on a skip
outcome shows: under filter `skip` or `all` with captured text it raises
`UnboundLocalError` (`schr` is assigned only for fail/pass), and under a
non-matching filter it prints nothing at all - no status line exists. -/
theorem C5_code_bug_eval :
    output argsSkipFilter initState "m::t" St.skip (Option.some "captured") true
      = Except.error PyErr.unboundLocalError ∧
    output argsAllFilter initState "m::t" St.skip (Option.some "captured") true
      = Except.error PyErr.unboundLocalError ∧
    output argsDeferred initState "m::t" St.skip (Option.some "captured") true
      = Except.ok (initState, []) ∧
    output argsInline initState "m::t" St.skip (Option.some "captured") true
      = Except.ok (initState, []) :=
  ⟨rfl, rfl, rfl, rfl⟩

/-- Claim C6: with a persisted token present and a successful validation
probe, authentication stops: no OAuth exchange, no username/password
exchange, no token write, and the chain succeeds. -/
theorem C6_token_short_circuit (a : AuthArgs) (c : Cluster)
    (h1 : c.acsToken.isSome = true) (h2 : c.leaderOk = true) :
    (authChain a c).oauthCalls = 0 ∧ (authChain a c).passwordCalls = 0 ∧
    (authChain a c).tokenWrites = [] ∧ (authChain a c).authenticated = true ∧
    (authChain a c).exitCode = Option.none := by
  obtain ⟨t, ht⟩ := Option.isSome_iff_exists.mp h1
  simp [authChain, ht, h2]

/-- Claim C6 witness: the theorem applied to a cluster holding a valid
persisted token, even with an OAuth token also supplied. -/
theorem C6_witness :
    (authChain authArgsOauth clusterTokenOk).oauthCalls = 0 ∧
    (authChain authArgsOauth clusterTokenOk).passwordCalls = 0 ∧
    (authChain authArgsOauth clusterTokenOk).tokenWrites = [] ∧
    (authChain authArgsOauth clusterTokenOk).authenticated = true ∧
    (authChain authArgsOauth clusterTokenOk).exitCode = Option.none :=
  C6_token_short_circuit authArgsOauth clusterTokenOk (by rfl) (by rfl)

/-- Claim C7: with filter `fail` and three nodes producing captured call
output with outcomes pass, fail and skip, exactly one detailed text box
appears - the failing node's - in both deferred and inline modes. -/
theorem C7_fail_filter_single_block :
    (runOutcome argsDeferred (c7events "out1" "out2" "out3")).map (fun p => blockTitles p.2)
      = Option.some ["a::t2"] ∧
    (runOutcome argsInline (c7events "out1" "out2" "out3")).map (fun p => blockTitles p.2)
      = Option.some ["a::t2"] :=
  ⟨rfl, rfl⟩

/-- Claim C8: in deferred mode no detailed text box appears in the stream
before the session-finish completion header; the finish step prints the
header followed by the buffered boxes in original append order; and in
inline mode nothing is ever buffered (each box is written at the moment
it is produced). -/
theorem C8_deferred_ordering (args : Args) (evs : List Event) (s' : PState) (o : List OutItem)
    (h : run args initState evs = Except.ok (s', o)) :
    (args.stdout_inline = false → noBlockBeforeHeader o = true) ∧
    (∀ s1 : PState, step args s1 Event.sessionFinish = Except.ok (s1,
        OutItem.stepMaj "Test phase completed." ::
          (if args.stdout.isSome && !s1.stdoutBuf.isEmpty then s1.stdoutBuf.map OutItem.block
           else []))) ∧
    (args.stdout_inline = true → s'.stdoutBuf = []) := by
  refine ⟨fun hi => run_noBlockBeforeHeader hi evs initState s' o h,
    step_finish_shape args, fun hi => ?_⟩
  rw [run_inline_buf hi evs initState s' o h]
  rfl

/-- Claim C8 witness: the theorem applied to a run consisting of just the
session-finish event. -/
theorem C8_witness :
    (argsDeferred.stdout_inline = false →
      noBlockBeforeHeader [OutItem.stepMaj "Test phase completed."] = true) ∧
    (∀ s1 : PState, step argsDeferred s1 Event.sessionFinish = Except.ok (s1,
        OutItem.stepMaj "Test phase completed." ::
          (if argsDeferred.stdout.isSome && !s1.stdoutBuf.isEmpty then
            s1.stdoutBuf.map OutItem.block
           else []))) ∧
    (argsDeferred.stdout_inline = true → initState.stdoutBuf = []) :=
  C8_deferred_ordering argsDeferred [Event.sessionFinish] initState
    [OutItem.stepMaj "Test phase completed."] (by rfl)

/-- Claim C9 counterexample: the claim says an id lacking `"::"` is
skipped for file-header grouping only, with all other processing (label,
failure flagging, terminal marking) still occurring.  A failed status
report with the malformed id `plaintest` leaves the state completely
unchanged and prints nothing: no label, no fail flag, no marker. -/
theorem C9_counterexample :
    tsMalformed.failed = true ∧
    run argsDeferred initState [Event.testStatus tsMalformed] = Except.ok (initState, []) :=
  ⟨rfl, rfl⟩

/-- Claim C9 amended: a status event whose node id lacks the `"::"`
separator returns immediately without raising: the entire handler is
skipped, so no header, label, failure flag, registration or marker is
produced and the state is unchanged. -/
theorem C9_amended_theorem (args : Args) (s : PState) (r : TestReport)
    (hm : splitNode r.nodeid = Option.none) :
    step args s (Event.testStatus r) = Except.ok (s, []) := by
  dsimp only [step, pytest_report_teststatus]
  rw [hm]

/-- Claim C9 witness: the amended theorem at the malformed-id report. -/
theorem C9_witness :
    step argsDeferred initState (Event.testStatus tsMalformed) = Except.ok (initState, []) :=
  C9_amended_theorem argsDeferred initState tsMalformed (by rfl)

/-- Claim C10: `report_stats` is a frame: no hook method ever modifies it,
so after any successfully processed event sequence it still holds its
initial value. -/
theorem C10_report_stats_frame (args : Args) (evs : List Event) (s' : PState)
    (o : List OutItem) (h : run args initState evs = Except.ok (s', o)) :
    s'.report_stats = initState.report_stats :=
  run_stats evs initState s' o h

/-- Claim C10 witness: the theorem applied to a session-start event. -/
theorem C10_witness : initState.report_stats = initState.report_stats :=
  C10_report_stats_frame argsDeferred [Event.sessionStart] initState
    [OutItem.stepMaj "Initiating testing phase..."] (by rfl)

end Shakedown

